import Mathlib

/-!
Verification of the X-OneBot tenant routing and backend fallback engine.

The definitions below are a shallow embedding of the Python sources:
  app/models/phone_number.py
  app/services/phone/phone_manager.py
  app/services/phone/providers/multi_provider_manager.py
  app/services/phone/providers/existing_number_manager.py
  app/services/ai/model_router.py
  app/services/ai/universal_bot.py
Database tables are embedded as lists of records in insertion order; an ORM
`.first()` query is `List.find?`; values produced by external network calls
(provider search, generation backends) are parameters of the embedded
functions, with `Option` distinguishing a raised exception (`none`) from a
returned value (`some`).
-/

namespace XOneBot

/-- `pat` begins the character list `s`. -/
def prefixMatch : List Char → List Char → Bool
  | [], _ => true
  | _ :: _, [] => false
  | a :: as, b :: bs => a == b && prefixMatch as bs

/-- `pat` occurs somewhere in the character list. -/
def substrSearch (pat : List Char) : List Char → Bool
  | [] => pat.isEmpty
  | b :: bs => prefixMatch pat (b :: bs) || substrSearch pat bs

/-- Python's substring operator `pat in s` on strings. -/
def containsSubstr (s pat : String) : Bool :=
  substrSearch pat.data s.data

/-- Python's `str.lower()` (ASCII case folding suffices here). -/
def pyLower (s : String) : String :=
  ⟨s.data.map Char.toLower⟩

/-- `NumberStatus` from app/models/phone_number.py (a `str` enum, so the
string literal "active" used by MultiProviderPhoneManager compares equal to
`NumberStatus.ACTIVE`). -/
inductive NumberStatus where
  | provisioning
  | active
  | suspended
  | released
deriving DecidableEq, Repr

/-- One row of the `phone_numbers` table (app/models/phone_number.py),
restricted to the columns the routing and setup code reads or writes.
`extension_code` embeds `metadata["extension_code"]` (absent = `none`). -/
structure PhoneRecord where
  id : Nat
  business_id : Nat
  phone_number : String
  is_universal : Bool
  status : NumberStatus
  extension_code : Option String
deriving DecidableEq, Repr

/-- The `phone_numbers` table in insertion order. -/
abbrev DB := List PhoneRecord

/-- Python truthiness of an optional string (`None` and `""` are falsy). -/
def ext_truthy : Option String → Bool
  | some s => s != ""
  | none => false

/-- `MultiProviderPhoneManager.route_incoming_call`
(multi_provider_manager.py lines 202-228): an extension match among
status-"active" records takes priority; otherwise an exact `to_number` match
among status-"active" records, with no `is_universal` restriction (the
universal-number check present in PhoneManager is commented out here). -/
def mpm_route_incoming_call (db : DB) (to_number : String)
    (extension : Option String) : Option Nat :=
  match (if ext_truthy extension then
           db.find? (fun r => r.extension_code == extension
                              && r.status == NumberStatus.active)
         else none) with
  | some r => some r.business_id
  | none =>
    match db.find? (fun r => r.phone_number == to_number
                             && r.status == NumberStatus.active) with
    | some r => some r.business_id
    | none => none

/-- `PhoneManager.route_incoming_call` (phone_manager.py lines 288-320):
returns `none` when the called number equals the configured universal number,
otherwise matches Active non-universal records. -/
def pm_route_incoming_call (universal_number : Option String) (db : DB)
    (to_number : String) : Option Nat :=
  if universal_number == some to_number then none
  else
    match db.find? (fun r => r.phone_number == to_number
                             && !r.is_universal
                             && r.status == NumberStatus.active) with
    | some r => some r.business_id
    | none => none

/-- Modelled from the spec's words (section 4.2, step (2)): an exact
`toNumber` match considering only Active NON-universal numbers.  Written to
be compared against `mpm_route_incoming_call`, which omits the non-universal
restriction. -/
def spec_resolve_by_number (db : DB) (to_number : String) : Option Nat :=
  (db.find? (fun r => r.phone_number == to_number
                      && !r.is_universal
                      && r.status == NumberStatus.active)).map
    (fun r => r.business_id)

/-- `ExistingNumberManager.setup_existing_number`
(existing_number_manager.py lines 21-85): appends a Provisioning record whose
extension code is the raw output of `_generate_extension_code`.  That helper
(lines 137-139) draws four random digits and performs no uniqueness check
against the table, so the draw is passed in as `random_draw`. -/
def setup_existing_number (db : DB) (business_id : Nat)
    (existing_number : String) (random_draw : String) : DB :=
  db ++ [{ id := db.length
           business_id := business_id
           phone_number := existing_number
           is_universal := false
           status := NumberStatus.provisioning
           extension_code := some random_draw }]

/-- `ExistingNumberManager.verify_existing_number`
(existing_number_manager.py lines 87-135): looks the record up by id and
business, compares the submitted code with the stored extension code, and on
a match transitions the record to Active; returns the success flag. -/
def verify_existing_number (db : DB) (business_id phone_id : Nat)
    (verification_code : String) : DB × Bool :=
  match db.find? (fun r => r.id == phone_id && r.business_id == business_id) with
  | none => (db, false)
  | some r =>
    if some verification_code == r.extension_code then
      (db.map (fun x =>
         if x.id == phone_id && x.business_id == business_id then
           { x with status := NumberStatus.active }
         else x),
       true)
    else (db, false)

/-- The extension codes carried by Active records, in table order. -/
def active_ext_codes (db : DB) : List String :=
  (db.filter (fun r => r.status == NumberStatus.active)).filterMap
    (fun r => r.extension_code)

/-- Spec invariant (section 3): an extension code is unique among Active
numbers. -/
def ext_unique (db : DB) : Prop :=
  (active_ext_codes db).Nodup

/-! Backend selector (app/services/ai/model_router.py). -/

/-- `ModelType` (model_router.py lines 18-23). -/
inductive ModelType where
  | groq
  | claude
  | gpt4
  | gpt35
deriving DecidableEq, Repr

/-- `QueryComplexity` (model_router.py lines 26-31). -/
inductive QueryComplexity where
  | simple
  | moderate
  | complex
  | multilingual
deriving DecidableEq, Repr

/-- `self.model_costs` (model_router.py lines 62-67), in units of 0.001 USD:
groq 0.001, claude 0.01, gpt4 0.02, gpt3.5 0.002. -/
def model_costs : ModelType → Nat
  | ModelType.groq => 1
  | ModelType.claude => 10
  | ModelType.gpt4 => 20
  | ModelType.gpt35 => 2

def simple_intents : List String :=
  ["menu_inquiry", "price_check", "hours_inquiry"]

def simple_keywords : List String :=
  ["menu", "price", "cost", "hours", "open", "close"]

def complex_indicators : List String :=
  ["but", "except", "without", "instead", "modify", "change",
   "allergic", "intolerant", "special", "complaint"]

/-- `ModelRouter._assess_complexity` (model_router.py lines 112-144):
non-default language first, then simple intents, simple keywords, complexity
markers, else moderate. -/
def assess_complexity (query : String) (intent : Option String)
    (language : String) : QueryComplexity :=
  let query_lower := pyLower query
  if language ≠ "en" then QueryComplexity.multilingual
  else if (match intent with
           | some i => simple_intents.contains i
           | none => false) then QueryComplexity.simple
  else if simple_keywords.any (fun k => containsSubstr query_lower k) then
    QueryComplexity.simple
  else if complex_indicators.any (fun k => containsSubstr query_lower k) then
    QueryComplexity.complex
  else QueryComplexity.moderate

/-- `ModelRouter._select_model` (model_router.py lines 146-159); the
`language` argument is accepted and ignored, as in the source. -/
def select_model (complexity : QueryComplexity) (language : String) :
    ModelType :=
  match complexity with
  | QueryComplexity.simple => ModelType.groq
  | QueryComplexity.complex => ModelType.claude
  | QueryComplexity.multilingual => ModelType.gpt4
  | QueryComplexity.moderate => ModelType.groq

/-- `fallback_chains` (model_router.py lines 170-175). -/
def fallback_chains : ModelType → List ModelType
  | ModelType.groq => [ModelType.groq, ModelType.gpt35, ModelType.claude]
  | ModelType.claude => [ModelType.claude, ModelType.gpt4, ModelType.gpt35]
  | ModelType.gpt4 => [ModelType.gpt4, ModelType.claude, ModelType.gpt35]
  | ModelType.gpt35 => [ModelType.gpt35, ModelType.groq, ModelType.claude]

/-- The static apology returned when every backend in the chain has failed
(model_router.py lines 193-196). -/
def apology_text : String :=
  "I apologize, I\x27m having trouble processing your request. Please try again or contact support."

/-- Chain walk of `ModelRouter._execute_with_fallback` (lines 179-196).
`call` embeds `_call_model`: `none` means the backend raised.  The result
pairs the `{text, model}` dict with the number of backend invocation
attempts actually made. -/
def walk_chain (call : ModelType → Option String) :
    List ModelType → (String × ModelType) × Nat
  | [] => ((apology_text, ModelType.gpt35), 0)
  | m :: rest =>
    match call m with
    | some text => ((text, m), 1)
    | none =>
      let r := walk_chain call rest
      (r.1, r.2 + 1)

/-- `ModelRouter._execute_with_fallback` (model_router.py lines 161-196). -/
def execute_with_fallback (call : ModelType → Option String)
    (primary_model : ModelType) : (String × ModelType) × Nat :=
  walk_chain call (fallback_chains primary_model)

/-- The observable fields of the dict returned by `ModelRouter.route_query`
(lines 104-110), omitting the wall-clock `response_time_ms`. -/
structure RouteResult where
  response : String
  model_used : ModelType
  cost : Nat
  complexity : QueryComplexity
deriving DecidableEq, Repr

/-- `ModelRouter.route_query` (model_router.py lines 69-110): assess
complexity, pick the primary model, walk the fallback chain, and attribute
the cost of whichever model the chain walk reports. -/
def route_query (call : ModelType → Option String) (query : String)
    (intent : Option String) (language : String) : RouteResult :=
  let complexity := assess_complexity query intent language
  let primary_model := select_model complexity language
  let r := (execute_with_fallback call primary_model).1
  { response := r.1
    model_used := r.2
    cost := model_costs r.2
    complexity := complexity }

/-! Carrier orchestrator search (multi_provider_manager.py). -/

/-- `self.providers` registry keys in dict insertion order
(multi_provider_manager.py lines 27-30). -/
def providers : List String := ["twilio", "vonage"]

/-- `self.regional_priority` (multi_provider_manager.py lines 36-41). -/
def regional_priority : List (String × List String) :=
  [("+371", ["vonage", "twilio"]),
   ("+372", ["twilio", "vonage"]),
   ("+370", ["vonage", "twilio"]),
   ("+1", ["twilio"])]

/-- `self.regional_priority.get(country_code, list(self.providers.keys()))`
(multi_provider_manager.py lines 119-122). -/
def regional_order (country_code : String) : List String :=
  match regional_priority.find? (fun p => p.1 == country_code) with
  | some p => p.2
  | none => providers

/-- The provider iteration order computed by
`MultiProviderPhoneManager.search_numbers` (lines 114-122): a truthy
preferred provider that is registered is placed first, followed by every
other registered provider in registry order — the regional priority table is
not consulted in that case. -/
def provider_order (country_code : String) (preferred : Option String) :
    List String :=
  match preferred with
  | some p =>
    if p ≠ "" ∧ p ∈ providers then p :: providers.filter (fun q => q != p)
    else regional_order country_code
  | none => regional_order country_code

/-- Modelled from the spec (section 4.2): "iterates providers in priority
order (preferred provider promoted to front if given)" — that is, the
preferred provider moved to the front of the REGIONAL priority order.
Written to be compared against `provider_order`. -/
def provider_order_spec (country_code : String) (preferred : Option String) :
    List String :=
  let base := regional_order country_code
  match preferred with
  | some p => if p ≠ "" then p :: base.filter (fun q => q != p) else base
  | none => preferred.elim base (fun _ => base)

/-- The aggregation loop of `search_numbers` (lines 124-135).  `res` embeds
`provider.search_available_numbers`: `none` means the call raised (the
provider is logged and skipped), `some numbers` is the returned list.  After
a successful batch the loop breaks once the batch is nonempty and at least 5
results have accumulated. -/
def search_go (res : String → Option (List Nat)) :
    List String → List Nat → List Nat
  | [], all_numbers => all_numbers
  | p :: rest, all_numbers =>
    if p ∈ providers then
      match res p with
      | none => search_go res rest all_numbers
      | some numbers =>
        let acc := all_numbers ++ numbers
        if numbers ≠ [] ∧ 5 ≤ acc.length then acc
        else search_go res rest acc
    else search_go res rest all_numbers

/-- `MultiProviderPhoneManager.search_numbers` (lines 103-135). -/
def search_numbers (res : String → Option (List Nat)) (country_code : String)
    (preferred : Option String) : List Nat :=
  search_go res (provider_order country_code preferred) []

/-! Routing engine (app/services/ai/universal_bot.py). -/

/-- A value stored under a key of the durable conversation context.
`vcoroutine` stands for a Python coroutine object: `process_message` binds
the result of calling the async `route_incoming_call` WITHOUT awaiting it,
and a coroutine object is truthy. -/
inductive CtxVal where
  | vnone
  | vint (n : Nat)
  | vcoroutine
deriving DecidableEq, Repr

/-- Python truthiness of a context value (`None` and `0` are falsy; a
coroutine object is truthy). -/
def CtxVal.truthy : CtxVal → Bool
  | CtxVal.vnone => false
  | CtxVal.vint n => n != 0
  | CtxVal.vcoroutine => true

/-- The durable context keys `UniversalBot.process_message` reads/writes. -/
structure Ctx where
  selected_business : CtxVal
deriving DecidableEq, Repr

/-- The branch `process_message` dispatches to after the custom-number
check: café selection versus in-tenant business conversation. -/
inductive Branch where
  | cafe_selection
  | business_conversation
deriving DecidableEq, Repr

/-- The routing part of `UniversalBot.process_message` (universal_bot.py
lines 39-77).  When a truthy `phone_number` differs from the universal
number, line 60 evaluates `self.phone_manager.route_incoming_call(...)`
without `await`; since `MultiProviderPhoneManager.route_incoming_call` is an
`async def`, the bound value is the un-awaited coroutine object (the query
inside it never runs), which is truthy, so `selected_business` is set to
that object and the tenant-selection branch is skipped. -/
def process_message_route (universal_number : Option String) (ctx : Ctx)
    (phone_number : Option String) : Ctx × Branch :=
  let ctx1 :=
    if ext_truthy phone_number && phone_number != universal_number then
      { ctx with selected_business := CtxVal.vcoroutine }
    else ctx
  if ctx1.selected_business.truthy then (ctx1, Branch.business_conversation)
  else (ctx1, Branch.cafe_selection)

/-- A café row as read by `_find_businesses_with_universal_access`. -/
structure Cafe where
  id : Nat
  name : String
deriving DecidableEq, Repr

/-- The reply dict fields returned by `_ai_handle_cafe_selection`. -/
structure BotResponse where
  message : String
  state : String
deriving DecidableEq, Repr

/-- The prompt built in the no-cafés branch of `_ai_handle_cafe_selection`
(universal_bot.py lines 94-101), split around the customer message. -/
def no_cafes_head : String :=
  "You are XoneBot, a helpful café assistant. A customer said: \""

def no_cafes_tail : String :=
  "\"\n\nUnfortunately, no cafés are currently available on our universal service.\n\nRespond naturally in their language (detect it automatically). Be apologetic but helpful.\nSuggest they try again later or provide alternative help."

def no_cafes_prompt (message : String) : String :=
  no_cafes_head ++ message ++ no_cafes_tail

/-- `UniversalBot._ai_handle_cafe_selection` (universal_bot.py lines
79-174).  `ai` embeds `model_router.route_query`'s returned response text
for a given prompt (the backend output is opaque).  The welcome and
option-listing prompts are abstracted by the `ai` argument applied to a
tagged prompt; only the branch structure, the context writes and the state
tags matter to the claims. -/
def ai_handle_cafe_selection (ai : String → String) (cafes : List Cafe)
    (message : String) (ctx : Ctx) : Ctx × BotResponse :=
  match cafes with
  | [] =>
    (ctx, { message := ai (no_cafes_prompt message), state := "no_cafes" })
  | _ :: _ =>
    match cafes.find? (fun cafe =>
        containsSubstr (pyLower message) (pyLower cafe.name)) with
    | some cafe =>
      ({ ctx with selected_business := CtxVal.vint cafe.id },
       { message := ai ("welcome:" ++ cafe.name ++ ":" ++ message)
         state := "cafe_selected" })
    | none =>
      (ctx,
       { message := ai ("choose:" ++ String.intercalate "," (cafes.map (fun c => c.name)) ++ ":" ++ message)
         state := "selecting_cafe" })

/-! Concrete records and traces used by individual claims. -/

instance (db : DB) : Decidable (ext_unique db) :=
  List.nodupDecidable (active_ext_codes db)

/-- A universal-number registration row as created by
`PhoneManager._register_on_universal` (phone_manager.py lines 144-166): the
shared universal number "+100" itself, owned by business 7, flagged
`is_universal`, status Active. -/
def universal_registration : PhoneRecord :=
  { id := 0, business_id := 7, phone_number := "+100", is_universal := true,
    status := NumberStatus.active, extension_code := none }

/-- A table whose only record is Suspended, so no Active record carries the
universal number "+100" or the extension "42". -/
def c1_witness_db : DB :=
  [{ id := 0, business_id := 3, phone_number := "+100", is_universal := true,
     status := NumberStatus.suspended, extension_code := some "42" }]

/-- An Active record flagged universal whose number is "+200", owned by
business 5. -/
def universal_match_record : PhoneRecord :=
  { id := 0, business_id := 5, phone_number := "+200", is_universal := true,
    status := NumberStatus.active, extension_code := none }

/-- Scenario E data: business 3 owns the Active direct number "+300";
business 9 owns a different Active number carrying extension code "4821". -/
def c2_witness_db : DB :=
  [{ id := 0, business_id := 3, phone_number := "+300", is_universal := false,
     status := NumberStatus.active, extension_code := none },
   { id := 1, business_id := 9, phone_number := "+999", is_universal := false,
     status := NumberStatus.active, extension_code := some "4821" }]

/-- Scenario C data: a dedicated Active number "+37120000001" bound to
business 7. -/
def c3_dedicated_db : DB :=
  [{ id := 0, business_id := 7, phone_number := "+37120000001",
     is_universal := false, status := NumberStatus.active,
     extension_code := none }]

/-- Two existing-number setups whose random four-digit draws collide on
"4821" (nothing in `_generate_extension_code` prevents this), followed by
both verifications succeeding with that code. -/
def c9_db_setup : DB :=
  setup_existing_number
    (setup_existing_number [] 1 "+37161111111" "4821") 2 "+37162222222" "4821"

def c9_verify1 : DB × Bool := verify_existing_number c9_db_setup 1 0 "4821"

def c9_verify2 : DB × Bool := verify_existing_number c9_verify1.1 2 1 "4821"

/-- A backend oracle on which only gpt3.5 completes, answering "Hi!". -/
def gpt35_only_call : ModelType → Option String :=
  fun m => if m == ModelType.gpt35 then some "Hi!" else none

/-! Theorems. -/

/-- When every backend of a chain raises, the chain walk returns the static
apology attributed to gpt3.5 after exactly one attempt per chain element. -/
theorem walk_chain_all_fail (call : ModelType → Option String)
    (chain : List ModelType) (h : ∀ m ∈ chain, call m = none) :
    walk_chain call chain = ((apology_text, ModelType.gpt35), chain.length) := by
  induction chain with
  | nil => rfl
  | cons m rest ih =>
    have hm : call m = none := h m (List.mem_cons_self m rest)
    have hrest : ∀ x ∈ rest, call x = none :=
      fun x hx => h x (List.mem_cons_of_mem m hx)
    simp [walk_chain, hm, ih hrest]

/-- Claim C1, counterexample: with the table holding the Active
universal-number registration row for "+100" (as
`PhoneManager._register_on_universal` creates), the multi-provider
`route_incoming_call` called with the universal number "+100" returns
business id 7 rather than `None`. -/
theorem C1_counterexample :
    universal_registration.is_universal = true ∧
    universal_registration.phone_number = "+100" ∧
    mpm_route_incoming_call [universal_registration] "+100" none = some 7 ∧
    some 7 ≠ (none : Option Nat) := by
  refine ⟨rfl, rfl, rfl, by decide⟩

/-- Claim C1 (amended): `PhoneManager.route_incoming_call` returns `None`
for the universal number unconditionally — for EVERY table `db2`, including
one holding the Active universal registration row — while
`MultiProviderPhoneManager.route_incoming_call` returns `None` for it only
provided no Active record of its table carries that number and no Active
record carries the supplied extension code (hypotheses h2/h3 constrain `db`
alone; `db2` is unconstrained). -/
theorem C1_universal_unresolved (univ : String) (db db2 : DB)
    (ext : Option String)
    (h2 : ∀ r ∈ db, r.status = NumberStatus.active → r.phone_number ≠ univ)
    (h3 : ∀ r ∈ db, r.status = NumberStatus.active → r.extension_code ≠ ext) :
    pm_route_incoming_call (some univ) db2 univ = none ∧
    mpm_route_incoming_call db univ ext = none := by
  have hnum : db.find? (fun r => r.phone_number == univ
      && r.status == NumberStatus.active) = none := by
    rw [List.find?_eq_none]
    intro r hr hcontra
    simp only [Bool.and_eq_true, beq_iff_eq] at hcontra
    exact h2 r hr hcontra.2 hcontra.1
  have hext : (if ext_truthy ext then
      db.find? (fun r => r.extension_code == ext
        && r.status == NumberStatus.active)
      else none) = none := by
    split
    · rw [List.find?_eq_none]
      intro r hr hcontra
      simp only [Bool.and_eq_true, beq_iff_eq] at hcontra
      exact h3 r hr hcontra.2 hcontra.1
    · rfl
  constructor
  · simp [pm_route_incoming_call]
  · simp [mpm_route_incoming_call, hext, hnum]

theorem C1_universal_unresolved_witness :
    (∀ r ∈ c1_witness_db, r.status = NumberStatus.active →
       r.phone_number ≠ "+100") ∧
    pm_route_incoming_call (some "+100") [universal_registration] "+100" =
      none ∧
    mpm_route_incoming_call c1_witness_db "+100" (some "99") = none :=
  ⟨by decide,
   (C1_universal_unresolved "+100" c1_witness_db [universal_registration]
     (some "99") (by decide) (by decide)).1,
   (C1_universal_unresolved "+100" c1_witness_db [universal_registration]
     (some "99") (by decide) (by decide)).2⟩

/-- Claim C2, counterexample: the `toNumber` match of
`MultiProviderPhoneManager.route_incoming_call` does NOT consider only
non-universal numbers — an Active record flagged `is_universal` is matched
and its business id returned, while the spec-modelled resolution (Active
non-universal only) returns `None` on the same table. -/
theorem C2_counterexample :
    universal_match_record.is_universal = true ∧
    mpm_route_incoming_call [universal_match_record] "+200" none = some 5 ∧
    spec_resolve_by_number [universal_match_record] "+200" = none := by
  refine ⟨rfl, rfl, rfl⟩

/-- Claim C2 (amended): with a truthy extension argument, resolution first
returns the business id of the first Active record matching the extension
code (regardless of the raw `to` number); only when no Active extension
match exists does it fall back to the exact `toNumber` match — but that
match considers ALL Active records, universal ones included. -/
theorem C2_resolution_order (db : DB) (to_number : String) (e : String)
    (he : e ≠ "") :
    (∀ r, db.find? (fun r => r.extension_code == some e
         && r.status == NumberStatus.active) = some r →
       mpm_route_incoming_call db to_number (some e) = some r.business_id) ∧
    (db.find? (fun r => r.extension_code == some e
         && r.status == NumberStatus.active) = none →
       mpm_route_incoming_call db to_number (some e) =
         (db.find? (fun r => r.phone_number == to_number
            && r.status == NumberStatus.active)).map
           (fun r => r.business_id)) := by
  have htr : ext_truthy (some e) = true := by
    simp [ext_truthy, bne_iff_ne, he]
  constructor
  · intro r hr
    simp [mpm_route_incoming_call, htr, hr]
  · intro hnone
    cases h2 : db.find? (fun r => r.phone_number == to_number
        && r.status == NumberStatus.active) with
    | none => simp [mpm_route_incoming_call, htr, hnone, h2]
    | some r => simp [mpm_route_incoming_call, htr, hnone, h2]

theorem C2_resolution_order_witness :
    ("4821" : String) ≠ "" ∧
    mpm_route_incoming_call c2_witness_db "+300" (some "4821") = some 9 ∧
    mpm_route_incoming_call c2_witness_db "+300" none = some 3 := by
  refine ⟨by decide, ?_, by decide⟩
  have hf : c2_witness_db.find? (fun r => r.extension_code == some "4821"
      && r.status == NumberStatus.active) =
      some { id := 1, business_id := 9, phone_number := "+999",
             is_universal := false, status := NumberStatus.active,
             extension_code := some "4821" } := by decide
  exact (C2_resolution_order c2_witness_db "+300" "4821" (by decide)).1 _ hf

/-- Claim C3, code bug: on a dedicated-number call whose `calledNumber`
matches an Active record bound to business 7, awaiting
`route_incoming_call` would yield 7, but `UniversalBot.process_message`
(universal_bot.py line 60) calls the async method without `await`, so the
durable context's `selected_business` becomes the truthy coroutine object
rather than 7.  The tenant-selection branch is indeed skipped, but the
session does not hold tenant id 7. -/
theorem C3_missing_await :
    mpm_route_incoming_call c3_dedicated_db "+37120000001" none = some 7 ∧
    process_message_route (some "+100") { selected_business := CtxVal.vnone }
      (some "+37120000001") =
      ({ selected_business := CtxVal.vcoroutine },
       Branch.business_conversation) ∧
    CtxVal.vcoroutine ≠ CtxVal.vint 7 := by
  refine ⟨rfl, rfl, by decide⟩

/-- Claim C4, counterexample: in the empty-tenant-registry case the reply
text is whatever the generation backend produces for the no-cafés prompt; a
backend answering "Sorry!" yields a reply with no "service unavailable"
phrase, even though no tenant is written and the selection state is kept. -/
theorem C4_counterexample :
    (ai_handle_cafe_selection (fun _ => "Sorry!") []
       "hello" { selected_business := CtxVal.vnone }).2.message = "Sorry!" ∧
    containsSubstr "Sorry!" "service unavailable" = false ∧
    (ai_handle_cafe_selection (fun _ => "Sorry!") []
       "hello" { selected_business := CtxVal.vnone }).1 =
      { selected_business := CtxVal.vnone } := by
  refine ⟨rfl, by decide, rfl⟩

/-- Claim C4 (amended): with no eligible tenant at all, the engine leaves
the durable context untouched (so the session stays in the selection
state), tags the reply state "no_cafes", and returns the backend's output
for the no-cafés prompt — a prompt whose fixed part states that no cafés
are currently available; the reply text itself carries no guaranteed
phrase. -/
theorem C4_no_cafes_state (ai : String → String) (message : String)
    (ctx : Ctx) :
    (ai_handle_cafe_selection ai [] message ctx).1 = ctx ∧
    (ai_handle_cafe_selection ai [] message ctx).2.state = "no_cafes" ∧
    (ai_handle_cafe_selection ai [] message ctx).2.message =
      ai (no_cafes_head ++ message ++ no_cafes_tail) ∧
    containsSubstr no_cafes_tail "no cafés are currently available" = true :=
  ⟨rfl, rfl, rfl, by decide⟩

/-- Claim C5: a non-default detected language forces the Multilingual
classification before any intent, simple-keyword or complexity-marker test
is consulted. -/
theorem C5_multilingual_override (query : String) (intent : Option String)
    (language : String) (h : language ≠ "en") :
    assess_complexity query intent language = QueryComplexity.multilingual := by
  simp only [assess_complexity]
  rw [if_pos h]

theorem C5_multilingual_override_witness :
    ("lv" : String) ≠ "en" ∧
    assess_complexity "menu but allergic" none "lv" =
      QueryComplexity.multilingual :=
  ⟨by decide, C5_multilingual_override "menu but allergic" none "lv" (by decide)⟩

/-- Claim C6, counterexample: the fallback chain of the groq backend does
not contain gpt4, so no chain is a total order over ALL four backends — each
chain has exactly three elements. -/
theorem C6_counterexample :
    ModelType.gpt4 ∉ fallback_chains ModelType.groq ∧
    (fallback_chains ModelType.groq).length = 3 := by
  decide

/-- Claim C6 (amended): every fallback chain starts at the preferred
backend, is duplicate-free, and covers exactly three of the four backends;
when all backends of a chain fail, exactly one static apology response is
returned (no error propagates) and exactly chain-length invocation attempts
are made. -/
theorem C6_chain_exhaustion (primary_model : ModelType)
    (call : ModelType → Option String)
    (h : ∀ m ∈ fallback_chains primary_model, call m = none) :
    execute_with_fallback call primary_model =
      ((apology_text, ModelType.gpt35),
       (fallback_chains primary_model).length) ∧
    (fallback_chains primary_model).length = 3 ∧
    (fallback_chains primary_model).head? = some primary_model ∧
    (fallback_chains primary_model).Nodup := by
  refine ⟨walk_chain_all_fail call _ h, ?_, ?_, ?_⟩ <;>
    cases primary_model <;> decide

theorem C6_chain_exhaustion_witness :
    (∀ m ∈ fallback_chains ModelType.groq,
       (fun (_ : ModelType) => (none : Option String)) m = none) ∧
    execute_with_fallback (fun _ => none) ModelType.groq =
      ((apology_text, ModelType.gpt35), 3) :=
  ⟨fun _ _ => rfl,
   (C6_chain_exhaustion ModelType.groq (fun _ => none) (fun _ _ => rfl)).1⟩

/-- Claim C7, counterexample: with a preferred provider given,
`search_numbers` does not use the regional priority order with the preferred
provider promoted — for country "+1" (regional order ["twilio"]) and
preferred "twilio" the code iterates ["twilio", "vonage"], observably: when
twilio's search raises and vonage returns five numbers, the code returns
those five, whereas the spec's order would consult nobody after twilio and
return nothing. -/
theorem C7_counterexample :
    provider_order "+1" (some "twilio") = ["twilio", "vonage"] ∧
    provider_order_spec "+1" (some "twilio") = ["twilio"] ∧
    search_numbers (fun p => if p == "twilio" then none
        else some [1, 2, 3, 4, 5]) "+1" (some "twilio") = [1, 2, 3, 4, 5] ∧
    search_go (fun p => if p == "twilio" then none else some [1, 2, 3, 4, 5])
      (provider_order_spec "+1" (some "twilio")) [] = [] := by
  refine ⟨by decide, by decide, by decide, by decide⟩

/-- Claim C7 (amended): a registered provider whose search raises is skipped
without aborting the rest of the search; after a nonempty successful batch
that brings the total to at least 5 the search stops, consulting no later
provider; without a preferred provider the iteration order is the regional
priority order; with a truthy registered preferred provider the order is
that provider followed by the other registered providers in registry order
(the regional table is ignored). -/
theorem C7_search_behavior (res res2 : String → Option (List Nat))
    (country_code e p : String) (rest : List String) (acc ns : List Nat)
    (hp : p ∈ providers) (hfail : res p = none) (hs : res2 p = some ns)
    (hne : ns ≠ []) (hlen : 5 ≤ (acc ++ ns).length)
    (he1 : e ≠ "") (he2 : e ∈ providers) :
    search_go res (p :: rest) acc = search_go res rest acc ∧
    search_go res2 (p :: rest) acc = acc ++ ns ∧
    provider_order country_code none = regional_order country_code ∧
    provider_order country_code (some e) =
      e :: providers.filter (fun q => q != e) := by
  refine ⟨?_, ?_, rfl, ?_⟩
  · simp [search_go, hp, hfail]
  · have hlen2 : 5 ≤ acc.length + ns.length := by simpa using hlen
    simp [search_go, hp, hs, hne, hlen2]
  · simp [provider_order, he1, he2]

theorem C7_search_behavior_witness :
    ("twilio" : String) ∈ providers ∧
    search_go (fun _ => none) ["twilio", "vonage"] [] =
      search_go (fun _ => none) ["vonage"] [] ∧
    search_go (fun _ => some [1, 2, 3, 4, 5]) ["twilio", "vonage"] [] =
      [] ++ [1, 2, 3, 4, 5] ∧
    provider_order "+372" (some "vonage") =
      "vonage" :: providers.filter (fun q => q != "vonage") := by
  have h := C7_search_behavior (fun _ => none) (fun _ => some [1, 2, 3, 4, 5])
    "+372" "vonage" "twilio" ["vonage"] [] [1, 2, 3, 4, 5]
    (by decide) rfl rfl (by decide) (by decide) (by decide) (by decide)
  exact ⟨by decide, h.1, h.2.1, h.2.2.2⟩

/-- Claim C8: the complexity-to-backend mapping is total — Simple and
Moderate go to groq, Complex to claude, Multilingual to gpt4 — and groq is
the cheapest backend of the four, whatever the language argument. -/
theorem C8_complexity_model_mapping (language : String) :
    select_model QueryComplexity.simple language = ModelType.groq ∧
    select_model QueryComplexity.complex language = ModelType.claude ∧
    select_model QueryComplexity.multilingual language = ModelType.gpt4 ∧
    select_model QueryComplexity.moderate language = ModelType.groq ∧
    ∀ m : ModelType, model_costs ModelType.groq ≤ model_costs m := by
  refine ⟨rfl, rfl, rfl, rfl, ?_⟩
  intro m
  cases m <;> decide

/-- Claim C9, code bug: `_generate_extension_code` draws four random digits
with no uniqueness check against the table (despite its docstring
"Generate unique 4-digit extension code"), so two existing-number setups
whose draws both come out "4821" each pass verification and leave two
Active records with the same extension code — the set of Active extension
codes is ["4821", "4821"], violating the uniqueness invariant that holds of
the empty table. -/
theorem C9_extension_code_collision :
    ext_unique ([] : DB) ∧
    c9_verify1.2 = true ∧
    c9_verify2.2 = true ∧
    active_ext_codes c9_verify2.1 = ["4821", "4821"] ∧
    ¬ ext_unique c9_verify2.1 := by
  refine ⟨by decide, by decide, by decide, by decide, by decide⟩

/-- Claim C10: when every backend fails, `route_query`'s returned record
carries `model_used = gpt3.5` and that backend's nonzero cost (0.002, i.e.
2 here), exactly the model/cost fields a genuine gpt3.5 success produces
(e.g. the oracle on which only gpt3.5 answers, for a Moderate query whose
chain starts at groq) — so those two fields cannot distinguish total chain
exhaustion from a real gpt3.5 completion. -/
theorem C10_apology_attribution (call : ModelType → Option String)
    (query : String) (intent : Option String) (language : String)
    (h : ∀ m, call m = none) :
    (route_query call query intent language).response = apology_text ∧
    (route_query call query intent language).model_used = ModelType.gpt35 ∧
    (route_query call query intent language).cost =
      model_costs ModelType.gpt35 ∧
    model_costs ModelType.gpt35 ≠ 0 ∧
    route_query gpt35_only_call "hello there" none "en" =
      { response := "Hi!", model_used := ModelType.gpt35,
        cost := model_costs ModelType.gpt35,
        complexity := QueryComplexity.moderate } ∧
    gpt35_only_call ModelType.gpt35 = some "Hi!" := by
  have hw := walk_chain_all_fail call
    (fallback_chains (select_model (assess_complexity query intent language)
      language)) (fun m _ => h m)
  refine ⟨?_, ?_, ?_, by decide, by decide, rfl⟩
  all_goals simp [route_query, execute_with_fallback, hw]

theorem C10_apology_attribution_witness :
    (∀ m : ModelType, (fun (_ : ModelType) => (none : Option String)) m = none) ∧
    (route_query (fun _ => none) "hello there" none "en").response =
      apology_text ∧
    (route_query (fun _ => none) "hello there" none "en").model_used =
      ModelType.gpt35 ∧
    (route_query (fun _ => none) "hello there" none "en").cost =
      model_costs ModelType.gpt35 :=
  ⟨fun _ => rfl,
   (C10_apology_attribution (fun _ => none) "hello there" none "en"
     (fun _ => rfl)).1,
   (C10_apology_attribution (fun _ => none) "hello there" none "en"
     (fun _ => rfl)).2.1,
   (C10_apology_attribution (fun _ => none) "hello there" none "en"
     (fun _ => rfl)).2.2.1⟩

end XOneBot
